import Mathlib

/-!
Verification development for the Contract_Monitor repository: a shallow
embedding of the persistence store (database.py), the multi-chain monitor
loop (main.py), the deployment extractor (blockchain_monitor.py), the
bytecode classifier (contract_analyzer.py) and the attribution client
(arkham_client_async.py), with theorems settling the specification claims.
External effects (SQLite, JSON-RPC, HTTP, wall-clock time) are modelled by
explicit state passing and oracle functions; machine reals (Python floats
for times and confidences) are modelled by rationals.
-/

/-! ## Persistence store (database.py) -/

/-- One row of the `contracts` table, with the columns of
`ContractDatabase.init_database` (the id / timestamp columns that the code
never reads are omitted). -/
structure ContractRow where
  contract_address : String
  network : String
  deployer_address : String
  entity_name : Option String
  entity_id : Option String
  block_number : Nat
  transaction_hash : String
  contract_type : Option String
  contract_info : Option String
  factory_address : Option String
  deployment_type : Option String
deriving DecidableEq

/-- Two rows collide on the `UNIQUE(contract_address, network)` key. -/
def same_key (a b : ContractRow) : Bool :=
  a.contract_address == b.contract_address && a.network == b.network

/-- A row with the key of `r` is already present in the table. -/
def key_mem (tbl : List ContractRow) (r : ContractRow) : Bool :=
  tbl.any (fun q => same_key q r)

/-- Effect of one `INSERT OR IGNORE INTO contracts` statement on the table:
if a row with the same `(contract_address, network)` key exists the table is
unchanged, otherwise the row is appended.  This is also the table effect of
`_save_contract_immediate` (plain INSERT whose IntegrityError is caught). -/
def insert_or_ignore (tbl : List ContractRow) (r : ContractRow) : List ContractRow :=
  if key_mem tbl r then tbl else tbl ++ [r]

/-- `ContractDatabase._flush_batch`: one `executemany` of
`INSERT OR IGNORE` over the batch, in order. -/
def flush_batch (tbl : List ContractRow) (batch : List ContractRow) : List ContractRow :=
  batch.foldl insert_or_ignore tbl

/-- At most one row per `(contract_address, network)` key. -/
abbrev unique_keys (tbl : List ContractRow) : Prop :=
  tbl.Pairwise (fun a b => same_key a b = false)

/-- In-memory state of `ContractDatabase`: the batch-mode flag, the write
queue fed by `save_contract`, and the durable `contracts` table. -/
structure DatabaseState where
  enable_batch_mode : Bool
  write_queue : List ContractRow
  rows : List ContractRow
deriving DecidableEq

/-- `ContractDatabase._save_contract_immediate`: plain INSERT; on a
duplicate key sqlite raises IntegrityError, which is caught and turned into
the return value `False` with the table unchanged. -/
def save_contract_immediate (st : DatabaseState) (r : ContractRow) : DatabaseState × Bool :=
  if key_mem st.rows r then (st, false)
  else ({ st with rows := st.rows ++ [r] }, true)

/-- `ContractDatabase.save_contract`: in batch mode the record is put on the
write queue and `True` is returned unconditionally; otherwise the immediate
path runs. -/
def save_contract (st : DatabaseState) (r : ContractRow) : DatabaseState × Bool :=
  if st.enable_batch_mode then
    ({ st with write_queue := st.write_queue ++ [r] }, true)
  else
    save_contract_immediate st r

/-- `ContractDatabase.get_last_processed_block`: lookup in the
`monitoring_state` table (`network PRIMARY KEY`), `None` when no row. -/
def get_last_processed_block (state : List (String × Nat)) (network : String) : Option Nat :=
  match state.find? (fun p => p.1 == network) with
  | some p => some p.2
  | none => none

/-! ## Monitor service (main.py) -/

/-- Python truthiness of an `Optional[int]`: `None` and `0` are falsy. -/
def py_truthy_opt_nat : Option Nat → Bool
  | none => false
  | some n => n != 0

/-- `MultiChainMonitorService.initialize_start_block`: the source tests the
fetched cursor with `if last_processed:` (Python truthiness), returning
`last_processed + 1` when truthy and the chain head otherwise. -/
def initialize_start_block (state : List (String × Nat)) (network : String)
    (current_head : Nat) : Nat :=
  let last_processed := get_last_processed_block state network
  if py_truthy_opt_nat last_processed then last_processed.getD 0 + 1 else current_head

/-- `MultiChainMonitorService.calculate_dynamic_batch_size`. -/
def calculate_dynamic_batch_size (base_batch_size behind : Nat) : Nat :=
  if behind < 100 then base_batch_size
  else if behind < 1000 then base_batch_size * 2
  else if behind < 5000 then base_batch_size * 5
  else if behind < 10000 then base_batch_size * 10
  else if behind < 50000 then base_batch_size * 20
  else base_batch_size * 50

/-- A deployment record as produced by `BlockchainMonitor` (the dict handed
to `process_deployment` and then to `save_contract`). -/
structure Deployment where
  contract_address : String
  deployer_address : Option String
  factory_address : Option String
  transaction_hash : String
  block_number : Nat
  network : String
  deployment_type : String
  gas_used : Nat
  status : Nat
deriving DecidableEq

/-- `BlockchainMonitor.get_contract_deployments(self, block_number, max_retries=3)`:
it scans the single block `block_number`; the second parameter is the retry
count for fetching that block, not an end of range.  The oracle `chain`
gives the deployments §4.3 discovers in each block; retries / RPC failures
are absorbed by the oracle. -/
def get_contract_deployments (chain : Nat → List Deployment)
    (block_number : Nat) (max_retries : Nat) : List Deployment :=
  chain block_number

/-- One iteration of the `latest_block > current_block` branch of
`MultiChainMonitorService.monitor_network`: compute `behind`, the dynamic
batch size and `end_block`, call
`monitor.get_contract_deployments(current_block, end_block)` — whose second
positional argument is `max_retries` — hand the result to
`process_deployments_parallel`, then commit `end_block` via
`update_last_processed_block` and advance to `end_block + 1`.  Returns
(deployments enqueued for persistence, committed cursor, next cursor). -/
def monitor_network_step (chain : Nat → List Deployment) (base_batch_size : Nat)
    (current_block latest_block : Nat) : List Deployment × Nat × Nat :=
  let behind := latest_block - current_block
  let dynamic_batch_size := calculate_dynamic_batch_size base_batch_size behind
  let end_block := min (current_block + dynamic_batch_size - 1) latest_block
  let deployments := get_contract_deployments chain current_block end_block
  (deployments, end_block, end_block + 1)

/-- Outcome of a Python call: normal value or a raised exception. -/
inductive PyResult (α : Type) where
  | ok : α → PyResult α
  | exc : String → PyResult α
deriving DecidableEq

/-- `MultiChainMonitorService.run`: when `self.monitors` is empty it logs
and plain-returns (`if not self.monitors: ...; return`); otherwise the body
runs (its outcome is the `loop_body` parameter; KeyboardInterrupt is caught
inside, so a clean shutdown is an ordinary return). -/
def service_run (monitors : List String) (loop_body : PyResult Unit) : PyResult Unit :=
  if monitors.isEmpty then PyResult.ok () else loop_body

/-- `main` of main.py: exit 1 when the API key is missing; then
`MultiChainMonitorService(...)` and `service.run()` inside one
`try/except Exception: sys.exit(1)`; falling off the end exits 0.
`construction` is the outcome of the constructor (the list of successfully
initialized monitors, or an exception). -/
def main_exit_code (arkham_api_key : String) (construction : PyResult (List String))
    (loop_body : PyResult Unit) : Nat :=
  if arkham_api_key == "" then 1
  else
    match construction with
    | PyResult.exc _ => 1
    | PyResult.ok monitors =>
      match service_run monitors loop_body with
      | PyResult.ok _ => 0
      | PyResult.exc _ => 1

/-- Error kinds distinguished by the `except` clauses of `monitor_network`. -/
inductive PyError where
  | connectionError : PyError
  | otherError : PyError
deriving DecidableEq

/-- Error-handling state of one `monitor_network` loop: the consecutive
error counter and the number of `BlockchainMonitor` reinitializations
performed. -/
structure MonitorLoopState where
  consecutive_errors : Nat
  reinit_count : Nat
deriving DecidableEq

/-- The two `except` branches of `MultiChainMonitorService.monitor_network`
(`BLOCK_CHECK_INTERVAL = 12`).  `ConnectionError`: increment the counter;
at 5 try to build a new `BlockchainMonitor` (on success reset the counter,
on failure sleep `min 300 (12 * 2^(min k 8))`); below 5 sleep
`12 * 2^(min (k-1) 5)`.  Any other exception: increment the counter and
sleep `min 300 (12 * 2^(min (k-1) 5))` — no reinitialization.  Returns the
new state and the seconds slept. -/
def monitor_network_on_error (reinit_succeeds : Bool) (st : MonitorLoopState)
    (e : PyError) : MonitorLoopState × Nat :=
  match e with
  | PyError.connectionError =>
    let k := st.consecutive_errors + 1
    if 5 ≤ k then
      if reinit_succeeds then
        ({ consecutive_errors := 0, reinit_count := st.reinit_count + 1 }, 0)
      else
        ({ st with consecutive_errors := k }, min 300 (12 * 2 ^ (min k 8)))
    else
      ({ st with consecutive_errors := k }, 12 * 2 ^ (min (k - 1) 5))
  | PyError.otherError =>
    let k := st.consecutive_errors + 1
    ({ st with consecutive_errors := k }, min 300 (12 * 2 ^ (min (k - 1) 5)))

/-- Folding a sequence of caught exceptions through the error handler. -/
def run_errors (reinit_succeeds : Bool) (st : MonitorLoopState)
    (es : List PyError) : MonitorLoopState :=
  es.foldl (fun s e => (monitor_network_on_error reinit_succeeds s e).1) st

/-! ## Bytecode classifier (contract_analyzer.py) -/

/-- Python `str.lower()` (character-wise ASCII lowering, which is all that
hex strings and chain names exercise). -/
def py_lower (s : String) : String :=
  String.mk (s.data.map Char.toLower)

/-- Boolean substring test on character lists (Python `needle in haystack`). -/
def contains_sub (needle : List Char) : List Char → Bool
  | [] => needle.isEmpty
  | c :: rest => needle.isPrefixOf (c :: rest) || contains_sub needle rest

/-- Python `needle in haystack` on strings. -/
def contains_substr (needle hay : String) : Bool :=
  contains_sub needle.data hay.data

def ERC20_SIGNATURES : List String :=
  ["0x18160ddd", "0x70a08231", "0xa9059cbb", "0x23b872dd", "0x095ea7b3", "0xdd62ed3e"]

def ERC721_SIGNATURES : List String :=
  ["0x70a08231", "0x6352211e", "0x42842e0e", "0x23b872dd", "0x095ea7b3", "0x081812fc",
   "0xa22cb465"]

def ERC1155_SIGNATURES : List String :=
  ["0x00fdd58e", "0x4e1273f4", "0xf242432a", "0x2eb2c2d6", "0xa22cb465"]

def ROUTER_SIGNATURES : List String :=
  ["0x38ed1739", "0x8803dbee", "0x7ff36ab5", "0xfb3bdb41", "0x18cbafe5", "0x4a25d94a",
   "0x02751cec", "0xe8e33700"]

def POOL_SIGNATURES : List String :=
  ["0x0902f1ac", "0x6a627842", "0x89afcb44", "0x022c0d9f", "0x128acb08", "0xd21220a7",
   "0x0dfe1681"]

def PROXY_SIGNATURES : List String :=
  ["0x5c60da1b", "0x3659cfe6", "0x4f1ef286", "0x8f283970", "0xf851a440"]

def STAKING_SIGNATURES : List String :=
  ["0xa694fc3a", "0x2e1a7d4d", "0x3d18b912", "0xe9fad8ee", "0x8b876347", "0x70897b23"]

def MULTISIG_SIGNATURES : List String :=
  ["0xc6427474", "0xc01a8c84", "0x20ea8d86", "0xee22610b", "0x025e7c27", "0x54741525"]

def TIMELOCK_SIGNATURES : List String :=
  ["0x3a66f901", "0x591fcdfe", "0xc1a287e2", "0x7d645fab", "0x26782247"]

def FACTORY_SIGNATURES : List String :=
  ["0xc9c65396", "0xa1671295", "0x13af4035", "0x1e3dd18b", "0x5c60da1b", "0x4e1273f4"]

def MINIMAL_PROXY_PATTERN : String := "0x363d3d373d3d3d363d73"

def CLONE_FACTORY_PATTERN : String := "0x3d602d80600a3d3981f3"

/-- `matches = sum(1 for sig in signatures.keys() if sig in bytecode)`. -/
def match_count (sigs : List String) (bytecode : String) : Nat :=
  sigs.countP (fun sig => contains_substr sig bytecode)

/-- The `type_checks` table of `ContractAnalyzer.analyze_bytecode`:
(name, selector set, threshold), in source order. -/
def type_checks : List (String × List String × Nat) :=
  [("ERC20", ERC20_SIGNATURES, 4),
   ("ERC721", ERC721_SIGNATURES, 4),
   ("ERC1155", ERC1155_SIGNATURES, 2),
   ("Router", ROUTER_SIGNATURES, 2),
   ("Pool", POOL_SIGNATURES, 2),
   ("Factory", FACTORY_SIGNATURES, 2),
   ("Proxy", PROXY_SIGNATURES, 1),
   ("Staking", STAKING_SIGNATURES, 2),
   ("Multisig", MULTISIG_SIGNATURES, 3),
   ("Timelock", TIMELOCK_SIGNATURES, 2)]

/-- Python `max(scores, key=scores.get)` over the remaining entries: keeps
the current best unless a later entry is strictly greater, so the first
maximal entry wins, as for a Python dict in insertion order. -/
def max_by_score : (String × ℚ) → List (String × ℚ) → (String × ℚ)
  | best, [] => best
  | best, c :: rest => max_by_score (if best.2 < c.2 then c else best) rest

/-- Result of `analyze_bytecode` / classification part of
`get_contract_info` (confidence is a Python float, modelled as a rational). -/
structure Classification where
  primary_type : String
  all_types : List String
  confidence : ℚ
  scores : List (String × ℚ)

/-- The two unconditional pattern checks of `analyze_bytecode` (EIP-1167
minimal proxy and clone factory), each reported with score 1.0. -/
def pattern_scores (bc : String) : List (String × ℚ) :=
  (if contains_substr MINIMAL_PROXY_PATTERN bc then [("MinimalProxy", (1 : ℚ))] else []) ++
  (if contains_substr CLONE_FACTORY_PATTERN bc then [("CloneFactory", (1 : ℚ))] else [])

/-- The selector-threshold loop of `analyze_bytecode`: a category is present
when `matches >= threshold`, with score `matches / len(signatures)`. -/
def category_scores (bc : String) : List (String × ℚ) :=
  type_checks.filterMap (fun tc =>
    if tc.2.2 ≤ match_count tc.2.1 bc then
      some (tc.1, (match_count tc.2.1 bc : ℚ) / (tc.2.1.length : ℚ))
    else none)

/-- Final selection of `analyze_bytecode`: `contract_types` and `scores`
are appended in lockstep in the source, so the score list determines both;
when no type matched, fall back to Unknown with confidence 0.0. -/
def analyze_core (scores : List (String × ℚ)) : Classification :=
  match scores with
  | [] => ⟨"Unknown", ["Unknown"], 0, []⟩
  | s :: rest =>
    let best := max_by_score s rest
    ⟨best.1, (s :: rest).map Prod.fst, best.2, s :: rest⟩

/-- `ContractAnalyzer.analyze_bytecode`. -/
def analyze_bytecode (bytecode : String) : Classification :=
  if bytecode == "" || bytecode == "0x" then ⟨"EOA", ["EOA"], 1, []⟩
  else analyze_core (pattern_scores (py_lower bytecode) ++ category_scores (py_lower bytecode))

/-- Classification part of `ContractAnalyzer.get_contract_info`:
`code_result` is the outcome of `w3.eth.get_code(...).hex()` (`none` models
the exception path).  The merged token / NFT / pool enrichment and
`bytecode_size` do not touch the classification fields. -/
def get_contract_info (code_result : Option String) : Classification :=
  match code_result with
  | none => ⟨"Error", ["Error"], 0, []⟩
  | some bytecode => analyze_bytecode bytecode

/-! ## Attribution client (arkham_client_async.py) -/

/-- One attribution cache value: the cached payload (`none` for a cached
404) and its insertion time in seconds. -/
structure CacheEntry where
  data : Option String
  time : ℚ
deriving DecidableEq

/-- `ArkhamClientAsync._get_cache_key` hashes
`lower(address) ++ ":" ++ lower(chain)` with md5; the model uses the
preimage itself as the key. -/
def get_cache_key (address chain : String) : String :=
  py_lower address ++ ":" ++ py_lower chain

/-- `ArkhamClientAsync._get_from_cache`: a fresh entry returns its stored
`cached_data` (which is `None` for a cached 404 — indistinguishable from a
miss for the caller); an expired entry is deleted; a missing key returns
`None`.  Returns (result, cache after lazy eviction). -/
def get_from_cache (cache : List (String × CacheEntry)) (address chain : String)
    (now : ℚ) : Option String × List (String × CacheEntry) :=
  let key := get_cache_key address chain
  match cache.find? (fun p => p.1 == key) with
  | some p =>
    if now - p.2.time < 3600 then (p.2.data, cache)
    else (none, cache.filter (fun q => q.1 != key))
  | none => (none, cache)

/-- `ArkhamClientAsync._save_to_cache`: dict assignment
`cache[key] = (data, now)`. -/
def save_to_cache (cache : List (String × CacheEntry)) (address chain : String)
    (data : Option String) (now : ℚ) : List (String × CacheEntry) :=
  let key := get_cache_key address chain
  cache.filter (fun q => q.1 != key) ++ [(key, ⟨data, now⟩)]

/-- The outcome of the single outbound `session.get` of `get_address_info`. -/
inductive HttpResponse where
  | ok : String → HttpResponse
  | notFound : HttpResponse
  | otherStatus : Nat → HttpResponse
  | netError : HttpResponse
deriving DecidableEq

/-- `ArkhamClientAsync.get_address_info`: first consult the cache with
`if cached is not None: return cached`; on a miss rate-limit and issue one
HTTP GET, caching 200 bodies and 404s (`None`), returning `None` without
caching for other statuses, timeouts and errors.  Returns (result, new
cache, number of outbound HTTP requests issued by this call). -/
def get_address_info (cache : List (String × CacheEntry)) (address chain : String)
    (now : ℚ) (response : HttpResponse) :
    Option String × List (String × CacheEntry) × Nat :=
  let fetched := get_from_cache cache address chain now
  match fetched.1 with
  | some d => (some d, fetched.2, 0)
  | none =>
    match response with
    | HttpResponse.ok d => (some d, save_to_cache fetched.2 address chain (some d) now, 1)
    | HttpResponse.notFound => (none, save_to_cache fetched.2 address chain none now, 1)
    | HttpResponse.otherStatus _ => (none, fetched.2, 1)
    | HttpResponse.netError => (none, fetched.2, 1)

/-! ## Rate limiter (arkham_client_async.py `_rate_limit`) -/

/-- `min_request_interval = 0.05` seconds (20 requests per second). -/
def min_request_interval : ℚ := 1 / 20

/-- One pass through `_rate_limit` with `last_request_time = last`, entering
the lock at wall-clock time `now`: if less than the interval has passed the
caller records `now + sleep_time` as the new `last_request_time` and sleeps
until then; otherwise the request goes out at `now`.  In both branches the
returned value is both the new `last_request_time` and the (idealized) time
the outbound request is issued — sleeps are taken as exact and the request
as immediate, which is the reading under which the limiter is specified. -/
def rate_limit_reserve (last now : ℚ) : ℚ :=
  if now - last < min_request_interval then
    now + (min_request_interval - (now - last))
  else now

/-- Request-issue times produced by a sequence of callers serialized by the
rate-limit lock, the i-th caller entering the lock at `arrivals[i]`. -/
def request_times (last : ℚ) : List ℚ → List ℚ
  | [] => []
  | now :: rest =>
    rate_limit_reserve last now :: request_times (rate_limit_reserve last now) rest

/-! ## Deployment extractor (blockchain_monitor.py) -/

/-- A transaction as used by `_process_single_transaction` (`to` is `None`
for a direct deployment). -/
structure Tx where
  hash : String
  toAddr : Option String
  fromAddr : String
deriving DecidableEq

/-- A receipt: `contractAddress`, the addresses of its `logs`, `gasUsed`
and `status`. -/
structure Receipt where
  contract_address : Option String
  logs : List String
  gas_used : Nat
  status : Nat
deriving DecidableEq

/-- One entry of a `trace_block` result: `type`, `action.from`,
`result.address`, `result.gasUsed`. -/
structure Trace where
  typ : String
  action_from : Option String
  result_address : Option String
  result_gas_used : Nat
deriving DecidableEq

/-- `SKIP_ADDRESSES` of `_fallback_detect_factory_deployments`: the zero
address plus `f"0x000...000{i}"` for `i in range(1, 20)` (decimal `i`, as
in the source). -/
def SKIP_ADDRESSES : List String :=
  "0x0000000000000000000000000000000000000000" ::
    (List.range 19).map
      (fun i => "0x000000000000000000000000000000000000000" ++ toString (i + 1))

/-- Body of the per-log loop of `_fallback_detect_factory_deployments` for
one non-skipped log address: fetch the code at the address (`eth_getCode`),
skip empty-ish code; fetch the code at `block_number - 1` (`none` models the
exception, whose handler is `pass`), skip addresses that already had code;
otherwise emit a factory deployment attributed to `tx.from` via `tx.to`.
Returns (emitted deployment if any, JSON-RPC methods invoked). -/
def fallback_emit (tx : Tx) (receipt : Receipt) (block_number : Nat) (network : String)
    (address : String) : Deployment :=
  ⟨address, some tx.fromAddr, tx.toAddr, tx.hash, block_number, network, "factory",
    receipt.gas_used, receipt.status⟩

def fallback_check_address (tx : Tx) (receipt : Receipt) (block_number : Nat)
    (network : String) (get_code : String → List Nat)
    (get_code_prev : String → Option (List Nat)) (address : String) :
    Option Deployment × List String :=
  if (get_code address).isEmpty || get_code address == [0]
      || (get_code address).length ≤ 2 then
    (none, ["eth_getCode"])
  else
    match get_code_prev address with
    | some prev =>
      if !prev.isEmpty && decide (2 < prev.length) then
        (none, ["eth_getCode", "eth_getCode"])
      else
        (some (fallback_emit tx receipt block_number network address),
          ["eth_getCode", "eth_getCode"])
    | none =>
      (some (fallback_emit tx receipt block_number network address),
        ["eth_getCode", "eth_getCode"])

/-- The per-log loop of `_fallback_detect_factory_deployments`: skip seen /
recipient / system addresses, otherwise run `fallback_check_address`.
Returns (deployments, JSON-RPC methods invoked, in order). -/
def fallback_scan (tx : Tx) (receipt : Receipt) (block_number : Nat) (network : String)
    (get_code : String → List Nat) (get_code_prev : String → Option (List Nat)) :
    List String → List String → List Deployment × List String
  | [], _ => ([], [])
  | address :: rest, seen =>
    if seen.contains address || tx.toAddr == some address
        || SKIP_ADDRESSES.contains address then
      fallback_scan tx receipt block_number network get_code get_code_prev rest seen
    else
      let chk := fallback_check_address tx receipt block_number network get_code
        get_code_prev address
      let r := fallback_scan tx receipt block_number network get_code get_code_prev rest
        (address :: seen)
      (match chk.1 with
       | some d => d :: r.1
       | none => r.1,
       chk.2 ++ r.2)

/-- `BlockchainMonitor._fallback_detect_factory_deployments`. -/
def fallback_detect_factory_deployments (tx : Tx) (receipt : Receipt)
    (block_number : Nat) (network : String) (get_code : String → List Nat)
    (get_code_prev : String → Option (List Nat)) : List Deployment × List String :=
  fallback_scan tx receipt block_number network get_code get_code_prev receipt.logs []

/-- `BlockchainMonitor._parse_traces_for_deployments`: one factory record
per `create` trace that carries a result address. -/
def parse_traces_for_deployments (traces : List Trace) (tx : Tx) (receipt : Receipt)
    (block_number : Nat) (network : String) : List Deployment :=
  traces.filterMap (fun trace =>
    if trace.typ == "create" then
      match trace.result_address with
      | some addr =>
        some ⟨addr, trace.action_from, tx.toAddr, tx.hash, block_number, network,
          "factory", trace.result_gas_used, receipt.status⟩
      | none => none
    else none)

/-- `tx_hash in block_traces` plus the lookup, over the dict produced by
`_get_block_traces`. -/
def lookup_traces (block_traces : List (String × List Trace)) (tx_hash : String) :
    Option (List Trace) :=
  match block_traces.find? (fun p => p.1 == tx_hash) with
  | some p => some p.2
  | none => none

/-- `BlockchainMonitor._process_single_transaction`: direct deployments from
`to == None` and a receipt `contractAddress`; for other transactions, use
the pre-fetched `block_traces` entry when present, otherwise fall back to
`_fallback_detect_factory_deployments` (the log-based heuristic).  Returns
(deployments, JSON-RPC methods invoked by this call, in order). -/
def process_single_transaction (tx : Tx) (receipt : Receipt) (block_number : Nat)
    (network : String) (block_traces : List (String × List Trace))
    (get_code : String → List Nat) (get_code_prev : String → Option (List Nat)) :
    List Deployment × List String :=
  match tx.toAddr with
  | none =>
    match receipt.contract_address with
    | some ca =>
      ([⟨ca, some tx.fromAddr, none, tx.hash, block_number, network, "direct",
        receipt.gas_used, receipt.status⟩], [])
    | none => ([], [])
  | some _ =>
    match lookup_traces block_traces tx.hash with
    | some traces => (parse_traces_for_deployments traces tx receipt block_number network, [])
    | none =>
      fallback_detect_factory_deployments tx receipt block_number network get_code
        get_code_prev

/-! ## Concrete fixtures used by counterexamples and witnesses -/

/-- A factory deployment sitting in block 11. -/
def c1_dep : Deployment :=
  ⟨"0xC", some ("0xA"), some ("0xF"), "0xT", 11, "ethereum", "factory", 0, 1⟩

/-- A chain whose only §4.3-discoverable deployment is `c1_dep` in block 11. -/
def c1_chain : Nat → List Deployment :=
  fun b => if b == 11 then [c1_dep] else []

/-- A persisted contract row. -/
def row_a : ContractRow :=
  ⟨"0xaaa", "ethereum", "0xd01", none, none, 100, "0xt1", some ("ERC20"), none, none,
    some ("direct")⟩

/-- A second discovery of the same contract: same key as `row_a`, different
enrichment fields. -/
def row_a_dup : ContractRow :=
  ⟨"0xaaa", "ethereum", "0xd01", some ("Binance"), some ("binance"), 100, "0xt1", none,
    none, none, some ("direct")⟩

/-- A row with a different key. -/
def row_b : ContractRow :=
  ⟨"0xbbb", "arbitrum", "0xd02", none, none, 7, "0xt2", none, none, none, some ("factory")⟩

/-- A non-direct transaction (`to = 0xF`). -/
def c3_tx : Tx := ⟨"0xT", some ("0xF"), "0xA"⟩

/-- Its receipt: no `contractAddress`, one log emitted by the fresh contract. -/
def c3_receipt : Receipt := ⟨none, ["0xN"], 90000, 1⟩

/-- Code oracle: every address currently carries three bytes of code. -/
def c3_code : String → List Nat := fun _ => [96, 96, 96]

/-- Historical code oracle: every address had no code at the parent block. -/
def c3_prev : String → Option (List Nat) := fun _ => some []

/-- First attribution lookup of `("0xAbC", "ethereum")` at t = 0, answered 404. -/
def c4_first : Option String × List (String × CacheEntry) × Nat :=
  get_address_info [] "0xAbC" "ethereum" 0 HttpResponse.notFound

/-- Second lookup of the same pair at t = 10 s (far inside the 1-hour TTL). -/
def c4_second : Option String × List (String × CacheEntry) × Nat :=
  get_address_info c4_first.2.1 "0xAbC" "ethereum" 10 HttpResponse.notFound

/-- Five consecutive non-connection exceptions. -/
def five_other_errors : List PyError :=
  [PyError.otherError, PyError.otherError, PyError.otherError, PyError.otherError,
   PyError.otherError]

/-! # Theorems -/

/-! ## C1 — batch commit vs. blocks actually scanned (main.py) -/

/-- C1: the spec requires that the cursor is committed to `e` only after
every deployment discoverable in blocks `[s..e]` has been enqueued.  The
code violates this: `monitor_network` calls
`monitor.get_contract_deployments(current_block, end_block)`, but that
function's second parameter is `max_retries`, so only block `s` is scanned.
Concretely, with cursor 10 and head 11 the step enqueues nothing, although
block 11 (= the committed cursor) contains a deployment. -/
theorem monitor_network_commits_unscanned_blocks :
    (monitor_network_step c1_chain 10 10 11).1 = [] ∧
    (monitor_network_step c1_chain 10 10 11).2.1 = 11 ∧
    c1_dep ∈ c1_chain 11 := by
  refine ⟨rfl, rfl, ?_⟩
  simp [c1_chain]

/-! ## C2 — idempotent persistence (database.py) -/

theorem key_mem_insert_or_ignore_mono (tbl : List ContractRow) (r q : ContractRow)
    (h : key_mem tbl q = true) : key_mem (insert_or_ignore tbl r) q = true := by
  unfold insert_or_ignore
  split
  · exact h
  · unfold key_mem at h ⊢
    simp only [List.any_append, h, Bool.true_or]

theorem key_mem_insert_or_ignore_self (tbl : List ContractRow) (r : ContractRow) :
    key_mem (insert_or_ignore tbl r) r = true := by
  unfold insert_or_ignore
  split
  · assumption
  · unfold key_mem
    simp [same_key]

theorem key_mem_flush_batch_mono (batch : List ContractRow) :
    ∀ (tbl : List ContractRow) (q : ContractRow), key_mem tbl q = true →
      key_mem (flush_batch tbl batch) q = true := by
  induction batch with
  | nil => intro tbl q h; exact h
  | cons b bs ih =>
    intro tbl q h
    exact ih (insert_or_ignore tbl b) q (key_mem_insert_or_ignore_mono tbl b q h)

theorem key_mem_flush_batch_of_mem (batch : List ContractRow) :
    ∀ (tbl : List ContractRow) (r : ContractRow), r ∈ batch →
      key_mem (flush_batch tbl batch) r = true := by
  induction batch with
  | nil => intro tbl r h; cases h
  | cons b bs ih =>
    intro tbl r h
    rcases List.mem_cons.mp h with h | h
    · subst h
      exact key_mem_flush_batch_mono bs (insert_or_ignore tbl r) r
        (key_mem_insert_or_ignore_self tbl r)
    · exact ih (insert_or_ignore tbl b) r h

theorem flush_batch_nop (batch : List ContractRow) :
    ∀ (tbl : List ContractRow), (∀ r ∈ batch, key_mem tbl r = true) →
      flush_batch tbl batch = tbl := by
  induction batch with
  | nil => intro tbl _; rfl
  | cons b bs ih =>
    intro tbl h
    have hb : insert_or_ignore tbl b = tbl := by
      unfold insert_or_ignore
      rw [if_pos (h b (List.mem_cons_self b bs))]
    show flush_batch (insert_or_ignore tbl b) bs = tbl
    rw [hb]
    exact ih tbl (fun r hr => h r (List.mem_cons_of_mem b hr))

theorem insert_or_ignore_unique (tbl : List ContractRow) (r : ContractRow)
    (h : unique_keys tbl) : unique_keys (insert_or_ignore tbl r) := by
  unfold insert_or_ignore
  split
  · exact h
  · rename_i hmem
    refine List.pairwise_append.mpr ⟨h, List.pairwise_singleton .., ?_⟩
    intro a ha b hb
    rw [List.mem_singleton] at hb
    subst hb
    unfold key_mem at hmem
    rw [Bool.not_eq_true, List.any_eq_false] at hmem
    simpa using hmem a ha

theorem flush_batch_unique (batch : List ContractRow) :
    ∀ (tbl : List ContractRow), unique_keys tbl → unique_keys (flush_batch tbl batch) := by
  induction batch with
  | nil => intro tbl h; exact h
  | cons b bs ih =>
    intro tbl h
    exact ih (insert_or_ignore tbl b) (insert_or_ignore_unique tbl b h)

/-- C2: persistence is idempotent.  (1) Starting from the freshly created
empty `contracts` table, any sequence of queued records flushed through
`INSERT OR IGNORE` leaves at most one row per `(contract_address, network)`
key; (2) a duplicate insert leaves the table unchanged (and, being total,
raises nothing); (3) replaying an already-flushed batch adds zero rows. -/
theorem persistence_idempotent (ops : List ContractRow) (tbl batch : List ContractRow)
    (r : ContractRow) (h : key_mem tbl r = true) :
    unique_keys (flush_batch [] ops) ∧
    insert_or_ignore tbl r = tbl ∧
    flush_batch (flush_batch tbl batch) batch = flush_batch tbl batch := by
  refine ⟨flush_batch_unique ops [] List.Pairwise.nil, ?_, ?_⟩
  · unfold insert_or_ignore
    rw [if_pos h]
  · exact flush_batch_nop batch (flush_batch tbl batch)
      (fun q hq => key_mem_flush_batch_of_mem batch tbl q hq)

/-- Witness: `row_a_dup` carries the key of the already-stored `row_a`;
re-inserting it leaves the table unchanged and replaying the batch is a
no-op. -/
theorem persistence_idempotent_witness :
    key_mem [row_a, row_b] row_a_dup = true ∧
    (unique_keys (flush_batch [] [row_a, row_b, row_a_dup]) ∧
     insert_or_ignore [row_a, row_b] row_a_dup = [row_a, row_b] ∧
     flush_batch (flush_batch [row_a, row_b] [row_a_dup, row_b]) [row_a_dup, row_b] =
       flush_batch [row_a, row_b] [row_a_dup, row_b]) :=
  ⟨by decide, persistence_idempotent [row_a, row_b, row_a_dup] [row_a, row_b]
    [row_a_dup, row_b] row_a_dup (by decide)⟩

/-! ## C3 — tracing fallback order (blockchain_monitor.py) -/

theorem fallback_check_address_calls (tx : Tx) (receipt : Receipt) (block_number : Nat)
    (network : String) (get_code : String → List Nat)
    (get_code_prev : String → Option (List Nat)) (address : String) :
    ∀ c ∈ (fallback_check_address tx receipt block_number network get_code
      get_code_prev address).2, c = "eth_getCode" := by
  intro c hc
  unfold fallback_check_address at hc
  repeat' split at hc
  all_goals simpa using hc

theorem fallback_scan_calls :
    ∀ (logs seen : List String) (tx : Tx) (receipt : Receipt) (block_number : Nat)
      (network : String) (get_code : String → List Nat)
      (get_code_prev : String → Option (List Nat)),
      ∀ c ∈ (fallback_scan tx receipt block_number network get_code get_code_prev
        logs seen).2, c = "eth_getCode" := by
  intro logs
  induction logs with
  | nil =>
    intro seen tx receipt bn nw gc gp c hc
    simp [fallback_scan] at hc
  | cons address rest ih =>
    intro seen tx receipt bn nw gc gp c hc
    rw [fallback_scan] at hc
    split at hc
    · exact ih seen tx receipt bn nw gc gp c hc
    · rcases List.mem_append.mp hc with h | h
      · exact fallback_check_address_calls tx receipt bn nw gc gp address c h
      · exact ih (address :: seen) tx receipt bn nw gc gp c h

/-- C3 counterexample: the claim says that when block-level trace data is
unavailable for a non-direct transaction, `trace_transaction` is called
before any later fallback.  With empty `block_traces`,
`_process_single_transaction` goes straight to the log-based fallback: it
emits a factory deployment for the fresh contract 0xN after two
`eth_getCode` calls, and neither `trace_transaction` nor
`debug_traceTransaction` is ever invoked. -/
theorem trace_transaction_never_attempted :
    (process_single_transaction c3_tx c3_receipt 200 ("ethereum") [] c3_code c3_prev).1 =
      [⟨"0xN", some ("0xA"), some ("0xF"), "0xT", 200, "ethereum", "factory", 90000, 1⟩] ∧
    (process_single_transaction c3_tx c3_receipt 200 ("ethereum") [] c3_code c3_prev).2 =
      ["eth_getCode", "eth_getCode"] ∧
    "trace_transaction" ∉
      (process_single_transaction c3_tx c3_receipt 200 ("ethereum") [] c3_code c3_prev).2 ∧
    "debug_traceTransaction" ∉
      (process_single_transaction c3_tx c3_receipt 200 ("ethereum") [] c3_code c3_prev).2 := by
  decide

/-- C3 amended: for a non-direct transaction, deployments come from the
pre-fetched `trace_block` data when an entry for the transaction exists
(with no further RPC call); otherwise the code falls back directly to the
log-based heuristic (`eth_getCode` probes only) — `trace_transaction` and
`debug_traceTransaction` are implemented only in the unused helper
`_detect_factory_deployments`, which the transaction-processing path never
calls. -/
theorem process_single_transaction_fallback (tx_hash a from_addr : String)
    (receipt : Receipt) (block_number : Nat) (network : String)
    (block_traces : List (String × List Trace)) (get_code : String → List Nat)
    (get_code_prev : String → Option (List Nat)) :
    (lookup_traces block_traces tx_hash = none →
      process_single_transaction ⟨tx_hash, some a, from_addr⟩ receipt block_number
          network block_traces get_code get_code_prev =
        fallback_detect_factory_deployments ⟨tx_hash, some a, from_addr⟩ receipt
          block_number network get_code get_code_prev ∧
      "trace_transaction" ∉ (process_single_transaction ⟨tx_hash, some a, from_addr⟩
        receipt block_number network block_traces get_code get_code_prev).2 ∧
      "debug_traceTransaction" ∉ (process_single_transaction ⟨tx_hash, some a, from_addr⟩
        receipt block_number network block_traces get_code get_code_prev).2) ∧
    (∀ traces, lookup_traces block_traces tx_hash = some traces →
      process_single_transaction ⟨tx_hash, some a, from_addr⟩ receipt block_number
          network block_traces get_code get_code_prev =
        (parse_traces_for_deployments traces ⟨tx_hash, some a, from_addr⟩ receipt
          block_number network, [])) := by
  constructor
  · intro hlk
    have hred : process_single_transaction ⟨tx_hash, some a, from_addr⟩ receipt
        block_number network block_traces get_code get_code_prev =
        fallback_detect_factory_deployments ⟨tx_hash, some a, from_addr⟩ receipt
          block_number network get_code get_code_prev := by
      unfold process_single_transaction
      rw [hlk]
    refine ⟨hred, ?_, ?_⟩
    · rw [hred]
      intro hmem
      have := fallback_scan_calls receipt.logs [] ⟨tx_hash, some a, from_addr⟩ receipt
        block_number network get_code get_code_prev _ hmem
      exact absurd this (by decide)
    · rw [hred]
      intro hmem
      have := fallback_scan_calls receipt.logs [] ⟨tx_hash, some a, from_addr⟩ receipt
        block_number network get_code get_code_prev _ hmem
      exact absurd this (by decide)
  · intro traces hlk
    unfold process_single_transaction
    rw [hlk]

/-- Witness: the fallback branch of the amended C3 at the concrete fixture. -/
theorem process_single_transaction_fallback_witness :
    lookup_traces [] "0xT" = none ∧
    (process_single_transaction ⟨"0xT", some ("0xF"), "0xA"⟩ c3_receipt 200 ("ethereum")
        [] c3_code c3_prev =
      fallback_detect_factory_deployments ⟨"0xT", some ("0xF"), "0xA"⟩ c3_receipt 200
        ("ethereum") c3_code c3_prev ∧
     "trace_transaction" ∉ (process_single_transaction ⟨"0xT", some ("0xF"), "0xA"⟩
       c3_receipt 200 ("ethereum") [] c3_code c3_prev).2 ∧
     "debug_traceTransaction" ∉ (process_single_transaction ⟨"0xT", some ("0xF"), "0xA"⟩
       c3_receipt 200 ("ethereum") [] c3_code c3_prev).2) :=
  ⟨rfl, (process_single_transaction_fallback "0xT" "0xF" "0xA" c3_receipt 200 "ethereum"
    [] c3_code c3_prev).1 rfl⟩

/-! ## C4 — negative caching in the attribution client (arkham_client_async.py) -/

/-- C4: the claim says a 404 is negatively cached so that a second lookup
within the TTL makes no second HTTP request.  In the code the 404 is indeed
stored (`_save_to_cache(address, chain, None)`), but `_get_from_cache`
returns the stored `None` itself, which `get_address_info` cannot tell from
a cache miss (`if cached is not None`), so the second lookup 10 s later
issues a second outbound request: 2 requests instead of the claimed 1. -/
theorem negative_cache_reissues_request :
    c4_first.2.2 = 1 ∧
    (c4_first.2.1.find? (fun p => p.1 == get_cache_key ("0xAbC") ("ethereum"))).isSome
      = true ∧
    c4_second.2.2 = 1 ∧
    c4_first.2.2 + c4_second.2.2 ≠ 1 := by
  have hfirst : c4_first.2.2 = 1 := rfl
  have hcache : c4_first.2.1 =
      [(get_cache_key ("0xAbC") ("ethereum"), ⟨none, 0⟩)] := rfl
  have hfind : c4_first.2.1.find?
      (fun p => p.1 == get_cache_key ("0xAbC") ("ethereum")) =
      some (get_cache_key ("0xAbC") ("ethereum"), ⟨none, 0⟩) := by
    rw [hcache]
    simp
  have hfetch : get_from_cache c4_first.2.1 "0xAbC" "ethereum" 10 =
      (none, c4_first.2.1) := by
    simp only [get_from_cache, hfind]
    norm_num
  have hsecond : c4_second.2.2 = 1 := by
    show (get_address_info c4_first.2.1 "0xAbC" "ethereum" 10 HttpResponse.notFound).2.2
      = 1
    simp only [get_address_info, hfetch]
  refine ⟨hfirst, by rw [hfind]; rfl, hsecond, ?_⟩
  rw [hfirst, hsecond]
  norm_num

/-- The half of C4 that does hold: after a 200 response, a second lookup of
the same `(address, chain)` pair within the TTL is served from the cache
and issues no outbound request (one request across both lookups). -/
theorem positive_cache_hit_no_request (address chain body : String) (t1 t2 : ℚ)
    (resp2 : HttpResponse) (h1 : 0 ≤ t2 - t1) (h2 : t2 - t1 < 3600) :
    (get_address_info [] address chain t1 (HttpResponse.ok body)).2.2 = 1 ∧
    (get_address_info
        (get_address_info [] address chain t1 (HttpResponse.ok body)).2.1
        address chain t2 resp2).1 = some body ∧
    (get_address_info
        (get_address_info [] address chain t1 (HttpResponse.ok body)).2.1
        address chain t2 resp2).2.2 = 0 := by
  refine ⟨rfl, ?_, ?_⟩ <;>
  · simp only [get_address_info, get_from_cache, save_to_cache, List.filter_nil,
      List.nil_append, List.find?_cons, beq_self_eq_true, if_pos, List.find?_nil]
    rw [if_pos h2]

/-- Witness for the 200-path cache hit at concrete times 0 and 10 s. -/
theorem positive_cache_hit_no_request_witness :
    ((0 : ℚ) ≤ 10 - 0 ∧ (10 - 0 : ℚ) < 3600) ∧
    ((get_address_info [] ("0xAbC") ("ethereum") 0
        (HttpResponse.ok ("payload"))).2.2 = 1 ∧
     (get_address_info
        (get_address_info [] ("0xAbC") ("ethereum") 0 (HttpResponse.ok ("payload"))).2.1
        ("0xAbC") ("ethereum") 10 HttpResponse.notFound).1 = some ("payload") ∧
     (get_address_info
        (get_address_info [] ("0xAbC") ("ethereum") 0 (HttpResponse.ok ("payload"))).2.1
        ("0xAbC") ("ethereum") 10 HttpResponse.notFound).2.2 = 0) :=
  ⟨⟨by norm_num, by norm_num⟩,
    positive_cache_hit_no_request "0xAbC" "ethereum" "payload" 0 10 HttpResponse.notFound
      (by norm_num) (by norm_num)⟩

/-! ## C5 — cursor resume (main.py `initialize_start_block`) -/

/-- C5 counterexample: the claim says any persisted cursor `p` resumes at
`p + 1`.  With `p = 0` persisted for ethereum, the code's
`if last_processed:` treats the row as absent (Python truthiness) and
starts from the head (here 5) instead of `0 + 1`. -/
theorem initialize_start_block_zero_cursor :
    get_last_processed_block [("ethereum", 0)] ("ethereum") = some 0 ∧
    initialize_start_block [("ethereum", 0)] ("ethereum") 5 ≠ 0 + 1 ∧
    initialize_start_block [("ethereum", 0)] ("ethereum") 5 = 5 := by
  refine ⟨rfl, ?_, rfl⟩
  decide

/-- C5 amended: a persisted cursor `p ≠ 0` resumes at `p + 1`; when no
cursor row exists — or the persisted value is 0, which Python truthiness
conflates with absence — monitoring starts from the chain's current head. -/
theorem initialize_start_block_spec (state : List (String × Nat)) (network : String)
    (current_head : Nat) :
    (∀ p, get_last_processed_block state network = some p → p ≠ 0 →
      initialize_start_block state network current_head = p + 1) ∧
    (get_last_processed_block state network = none →
      initialize_start_block state network current_head = current_head) ∧
    (get_last_processed_block state network = some 0 →
      initialize_start_block state network current_head = current_head) := by
  refine ⟨?_, ?_, ?_⟩
  · intro p hp hp0
    unfold initialize_start_block
    rw [hp]
    simp [py_truthy_opt_nat, hp0]
  · intro hp
    unfold initialize_start_block
    rw [hp]
    rfl
  · intro hp
    unfold initialize_start_block
    rw [hp]
    rfl

/-- Witness for the amended C5 at a concrete persisted cursor 41. -/
theorem initialize_start_block_spec_witness :
    get_last_processed_block [("base", 41)] ("base") = some 41 ∧ 41 ≠ 0 ∧
    initialize_start_block [("base", 41)] ("base") 99 = 41 + 1 :=
  ⟨by decide, by decide,
    (initialize_start_block_spec [("base", 41)] ("base") 99).1 41 (by decide) (by decide)⟩

/-! ## C6 — classification invariants (contract_analyzer.py) -/

theorem max_by_score_mem :
    ∀ (rest : List (String × ℚ)) (best : String × ℚ),
      max_by_score best rest = best ∨ max_by_score best rest ∈ rest := by
  intro rest
  induction rest with
  | nil => intro best; left; rfl
  | cons c t ih =>
    intro best
    have hd : max_by_score best (c :: t) =
        max_by_score (if best.2 < c.2 then c else best) t := rfl
    rcases ih (if best.2 < c.2 then c else best) with h | h
    · rw [hd, h]
      split
      · right; exact List.mem_cons_self ..
      · left; rfl
    · right
      rw [hd]
      exact List.mem_cons_of_mem c h

theorem pattern_scores_bounds (bc : String) :
    ∀ p ∈ pattern_scores bc, 0 ≤ p.2 ∧ p.2 ≤ 1 := by
  intro p hp
  unfold pattern_scores at hp
  rw [List.mem_append] at hp
  rcases hp with hp | hp
  · split at hp
    · rw [List.mem_singleton] at hp; subst hp; norm_num
    · simp at hp
  · split at hp
    · rw [List.mem_singleton] at hp; subst hp; norm_num
    · simp at hp

theorem category_scores_bounds (bc : String) :
    ∀ p ∈ category_scores bc, 0 ≤ p.2 ∧ p.2 ≤ 1 := by
  intro p hp
  unfold category_scores at hp
  rw [List.mem_filterMap] at hp
  obtain ⟨tc, _, heq⟩ := hp
  split at heq
  · rw [Option.some_inj] at heq
    subst heq
    have hc : match_count tc.2.1 bc ≤ tc.2.1.length := List.countP_le_length _
    constructor
    · positivity
    · rcases Nat.eq_zero_or_pos tc.2.1.length with hz | hz
      · simp [hz]
      · rw [div_le_one (by exact_mod_cast hz)]
        exact_mod_cast hc
  · cases heq

theorem analyze_core_invariant (scores : List (String × ℚ))
    (hb : ∀ p ∈ scores, 0 ≤ p.2 ∧ p.2 ≤ 1) :
    (analyze_core scores).primary_type ∈ (analyze_core scores).all_types ∧
    (analyze_core scores).all_types ≠ [] ∧
    0 ≤ (analyze_core scores).confidence ∧ (analyze_core scores).confidence ≤ 1 := by
  match scores with
  | [] =>
    exact ⟨List.mem_singleton.mpr rfl, by simp [analyze_core],
      by norm_num [analyze_core], by norm_num [analyze_core]⟩
  | s :: rest =>
    have hmem : max_by_score s rest ∈ s :: rest := by
      rcases max_by_score_mem rest s with h | h
      · rw [h]; exact List.mem_cons_self ..
      · exact List.mem_cons_of_mem s h
    have hbest := hb (max_by_score s rest) hmem
    exact ⟨List.mem_map_of_mem Prod.fst hmem, by simp [analyze_core], hbest.1, hbest.2⟩

/-- C6: for every bytecode input — empty code included — and for the error
path of `get_contract_info`, the classification has its primary type inside
`all_types`, a non-empty `all_types` (falling back to Unknown with
confidence 0.0 when nothing matches), and a confidence within [0, 1]. -/
theorem classification_invariant (bytecode : String) (code_result : Option String) :
    ((analyze_bytecode bytecode).primary_type ∈ (analyze_bytecode bytecode).all_types ∧
     (analyze_bytecode bytecode).all_types ≠ [] ∧
     0 ≤ (analyze_bytecode bytecode).confidence ∧
     (analyze_bytecode bytecode).confidence ≤ 1) ∧
    ((get_contract_info code_result).primary_type ∈
       (get_contract_info code_result).all_types ∧
     (get_contract_info code_result).all_types ≠ [] ∧
     0 ≤ (get_contract_info code_result).confidence ∧
     (get_contract_info code_result).confidence ≤ 1) ∧
    ((bytecode == "" || bytecode == "0x") = false →
     pattern_scores (py_lower bytecode) ++ category_scores (py_lower bytecode) = [] →
     (analyze_bytecode bytecode).all_types = ["Unknown"] ∧
     (analyze_bytecode bytecode).confidence = 0) := by
  have hmain : ∀ bc : String,
      (analyze_bytecode bc).primary_type ∈ (analyze_bytecode bc).all_types ∧
      (analyze_bytecode bc).all_types ≠ [] ∧
      0 ≤ (analyze_bytecode bc).confidence ∧ (analyze_bytecode bc).confidence ≤ 1 := by
    intro bc
    unfold analyze_bytecode
    split
    · exact ⟨List.mem_singleton.mpr rfl, by simp, by norm_num, by norm_num⟩

    · refine analyze_core_invariant _ ?_
      intro p hp
      rw [List.mem_append] at hp
      rcases hp with hp | hp
      · exact pattern_scores_bounds _ p hp
      · exact category_scores_bounds _ p hp
  refine ⟨hmain bytecode, ?_, ?_⟩
  · match code_result with
    | none =>
      exact ⟨List.mem_singleton.mpr rfl, by simp [get_contract_info],
        by norm_num [get_contract_info], by norm_num [get_contract_info]⟩
    | some bc => exact hmain bc
  · intro hne hempty
    unfold analyze_bytecode
    rw [hne]
    simp only [Bool.false_eq_true, if_false]
    rw [hempty]
    exact ⟨rfl, rfl⟩

/-- Witness: on a bytecode matching nothing the classifier falls back to
Unknown with confidence 0, and the error path keeps the invariant. -/
theorem classification_invariant_witness :
    (analyze_bytecode "0xdeadbeef").all_types = ["Unknown"] ∧
    (analyze_bytecode "0xdeadbeef").confidence = 0 :=
  (classification_invariant "0xdeadbeef" none).2.2 (by decide) (by decide)

/-! ## C7 — error handling in the monitor loop (main.py) -/

/-- C7 counterexample: the claim says any 5 consecutive errors trigger
adapter reinitialization and a counter reset.  Five consecutive
non-connection exceptions leave the counter at 5 and never reinitialize:
the generic `except Exception` branch has no reinitialization logic. -/
theorem other_errors_never_reinitialize :
    (run_errors true ⟨0, 0⟩ five_other_errors).reinit_count = 0 ∧
    (run_errors true ⟨0, 0⟩ five_other_errors).consecutive_errors = 5 := by
  decide

/-- C7 amended: only consecutive `ConnectionError`s escalate to
reinitialization — on the 5th consecutive connection error the loop builds
a new `BlockchainMonitor` and resets the counter (when reinitialization
succeeds); below the threshold the counter just increments; any other
exception increments the same counter and backs off but never
reinitializes the adapter. -/
theorem monitor_error_handling (reinit_succeeds : Bool) (st : MonitorLoopState)
    (e : PyError) :
    (e = PyError.connectionError → st.consecutive_errors = 4 → reinit_succeeds = true →
      (monitor_network_on_error reinit_succeeds st e).1.consecutive_errors = 0 ∧
      (monitor_network_on_error reinit_succeeds st e).1.reinit_count =
        st.reinit_count + 1) ∧
    (e = PyError.connectionError → st.consecutive_errors + 1 < 5 →
      (monitor_network_on_error reinit_succeeds st e).1.consecutive_errors =
        st.consecutive_errors + 1 ∧
      (monitor_network_on_error reinit_succeeds st e).1.reinit_count = st.reinit_count) ∧
    (e = PyError.otherError →
      (monitor_network_on_error reinit_succeeds st e).1.consecutive_errors =
        st.consecutive_errors + 1 ∧
      (monitor_network_on_error reinit_succeeds st e).1.reinit_count = st.reinit_count) := by
  refine ⟨?_, ?_, ?_⟩
  · intro he h4 hr
    subst he; subst hr
    simp [monitor_network_on_error, h4]
  · intro he hlt
    subst he
    have h5 : ¬ 5 ≤ st.consecutive_errors + 1 := by omega
    simp [monitor_network_on_error, h5]
  · intro he
    subst he
    simp [monitor_network_on_error]

/-- Witness: the 5th consecutive connection error reinitializes. -/
theorem monitor_error_handling_witness :
    (monitor_network_on_error true ⟨4, 0⟩ PyError.connectionError).1.consecutive_errors
      = 0 ∧
    (monitor_network_on_error true ⟨4, 0⟩ PyError.connectionError).1.reinit_count = 0 + 1 :=
  (monitor_error_handling true ⟨4, 0⟩ PyError.connectionError).1 rfl rfl rfl

/-! ## C8 — attribution rate limit (arkham_client_async.py) -/

theorem rate_limit_reserve_ge (last now : ℚ) :
    last + min_request_interval ≤ rate_limit_reserve last now := by
  unfold rate_limit_reserve
  split
  · linarith
  · linarith [not_lt.mp (by assumption : ¬ now - last < min_request_interval)]

theorem request_times_lower_bound :
    ∀ (arrivals : List ℚ) (last x : ℚ), x ∈ request_times last arrivals →
      last + min_request_interval ≤ x := by
  intro arrivals
  induction arrivals with
  | nil => intro last x hx; simp [request_times] at hx
  | cons a rest ih =>
    intro last x hx
    rcases List.mem_cons.mp hx with hx | hx
    · subst hx; exact rate_limit_reserve_ge last a
    · have h1 := ih (rate_limit_reserve last a) x hx
      have h2 := rate_limit_reserve_ge last a
      have hI : (0 : ℚ) ≤ min_request_interval := by norm_num [min_request_interval]
      linarith

theorem request_times_pairwise (arrivals : List ℚ) (last : ℚ) :
    (request_times last arrivals).Pairwise
      (fun a b => a + min_request_interval ≤ b) := by
  induction arrivals generalizing last with
  | nil => exact List.Pairwise.nil
  | cons a rest ih =>
    refine List.pairwise_cons.mpr ⟨?_, ih (rate_limit_reserve last a)⟩
    intro x hx
    exact request_times_lower_bound rest (rate_limit_reserve last a) x hx

theorem separated_window_count :
    ∀ (l : List ℚ), l.Pairwise (fun a b => a + min_request_interval ≤ b) →
      ∀ (b : ℚ) (k : ℕ),
        l.countP (fun x => decide (b ≤ x) && decide (x < b + k * min_request_interval))
          ≤ k := by
  intro l
  induction l with
  | nil => intro _ b k; simp [List.countP_nil]
  | cons a t ih =>
    intro hp b k
    obtain ⟨ha, hpt⟩ := List.pairwise_cons.mp hp
    simp only [List.countP_cons]
    by_cases hcnt : (decide (b ≤ a) && decide (a < b + k * min_request_interval)) = true
    · have hcnt2 := hcnt
      rw [Bool.and_eq_true, decide_eq_true_eq, decide_eq_true_eq] at hcnt2
      have hk : k ≠ 0 := by
        intro h0
        subst h0
        have h1 : a < b := by simpa using hcnt2.2
        linarith [hcnt2.1]
      obtain ⟨k1, rfl⟩ : ∃ k1, k = k1 + 1 := ⟨k - 1, by omega⟩
      have hc : ((k1 + 1 : ℕ) : ℚ) * min_request_interval =
          min_request_interval + (k1 : ℚ) * min_request_interval := by
        push_cast
        ring
      have hmono : t.countP
          (fun x => decide (b ≤ x) &&
            decide (x < b + ((k1 + 1 : ℕ) : ℚ) * min_request_interval)) ≤
          t.countP (fun x => decide (b + min_request_interval ≤ x) &&
            decide (x < b + min_request_interval + (k1 : ℕ) * min_request_interval)) := by
        refine List.countP_mono_left ?_
        intro x hx hpred
        rw [Bool.and_eq_true, decide_eq_true_eq, decide_eq_true_eq] at hpred
        rw [Bool.and_eq_true, decide_eq_true_eq, decide_eq_true_eq]
        obtain ⟨hp1, hp2⟩ := hpred
        rw [hc] at hp2
        have hax := ha x hx
        exact ⟨by linarith [hcnt2.1], by linarith⟩
      have hstep := le_trans hmono (ih hpt (b + min_request_interval) k1)
      rw [if_pos hcnt]
      omega
    · rw [if_neg hcnt]
      have := ih hpt b k
      omega

/-- C8: with callers serialized by the rate-limit lock (and the idealized
timing of `rate_limit_reserve`), consecutive outbound attribution requests
are at least `min_request_interval` = 50 ms apart, and any half-open
1-second window contains at most 20 of them. -/
theorem rate_limit_window (last : ℚ) (arrivals : List ℚ) (t : ℚ) :
    (request_times last arrivals).Chain'
      (fun a b => a + min_request_interval ≤ b) ∧
    (request_times last arrivals).countP
      (fun x => decide (t ≤ x) && decide (x < t + 1)) ≤ 20 := by
  constructor
  · exact List.Pairwise.chain' (request_times_pairwise arrivals last)
  · have hw : (t + 1 : ℚ) = t + ((20 : ℕ) : ℚ) * min_request_interval := by
      norm_num [min_request_interval]
    simp only [hw]
    exact separated_window_count (request_times last arrivals)
      (request_times_pairwise arrivals last) t 20

/-! ## C9 — process exit codes (main.py `main`) -/

/-- C9 counterexample: the claim says "no chain monitor could be started" is
a fatal init error with exit code 1.  In the code,
`MultiChainMonitorService.run` just returns when `self.monitors` is empty,
so `main` falls off the end and the process exits 0. -/
theorem main_exit_zero_when_no_monitors :
    main_exit_code "key" (PyResult.ok []) (PyResult.ok ()) = 0 ∧
    main_exit_code "key" (PyResult.ok []) (PyResult.ok ()) ≠ 1 := by
  decide

/-- C9 amended: exit code 0 on normal shutdown — including the case that no
chain monitor could be started, where `run` returns early — and exit code 1
on a missing API key or on an exception escaping service construction or
`run`. -/
theorem main_exit_code_spec (key : String) (construction : PyResult (List String))
    (loop_body : PyResult Unit) :
    (key = "" → main_exit_code key construction loop_body = 1) ∧
    (∀ m, key ≠ "" → construction = PyResult.exc m →
      main_exit_code key construction loop_body = 1) ∧
    (∀ monitors, key ≠ "" → construction = PyResult.ok monitors → monitors = [] →
      main_exit_code key construction loop_body = 0) ∧
    (∀ monitors, key ≠ "" → construction = PyResult.ok monitors →
      loop_body = PyResult.ok () →
      main_exit_code key construction loop_body = 0) ∧
    (∀ monitors msg, key ≠ "" → construction = PyResult.ok monitors → monitors ≠ [] →
      loop_body = PyResult.exc msg →
      main_exit_code key construction loop_body = 1) := by
  have hkey : ∀ h : key ≠ "", (key == "") = false := by
    intro h
    simpa using h
  refine ⟨?_, ?_, ?_, ?_, ?_⟩
  · intro h
    subst h
    rfl
  · intro m hk hc
    subst hc
    simp [main_exit_code, hkey hk]
  · intro monitors hk hc hm
    subst hc; subst hm
    simp [main_exit_code, hkey hk, service_run]
  · intro monitors hk hc hb
    subst hc; subst hb
    cases monitors with
    | nil => simp [main_exit_code, hkey hk, service_run]
    | cons m ms => simp [main_exit_code, hkey hk, service_run]
  · intro monitors msg hk hc hm hb
    subst hc; subst hb
    have : monitors.isEmpty = false := by
      cases monitors with
      | nil => exact absurd rfl hm
      | cons m ms => rfl
    simp [main_exit_code, hkey hk, service_run, this]

/-- Witness: missing API key exits 1; a normal run exits 0. -/
theorem main_exit_code_spec_witness :
    main_exit_code "" (PyResult.ok ["ethereum"]) (PyResult.ok ()) = 1 ∧
    main_exit_code "k" (PyResult.ok ["ethereum"]) (PyResult.ok ()) = 0 :=
  ⟨(main_exit_code_spec "" (PyResult.ok ["ethereum"]) (PyResult.ok ())).1 rfl,
   (main_exit_code_spec "k" (PyResult.ok ["ethereum"]) (PyResult.ok ())).2.2.2.1
     ["ethereum"] (by decide) rfl rfl⟩

/-! ## C10 — save_contract in batch mode (database.py) -/

/-- C10: with batch mode enabled, `save_contract` queues the record and
returns `True` for every input — even when a row with the same
`(contract_address, network)` key is already in the table — and it does not
touch the table: duplicate detection happens only at flush time. -/
theorem save_contract_batch_always_true (st : DatabaseState) (r : ContractRow)
    (h : st.enable_batch_mode = true) :
    (save_contract st r).2 = true ∧
    (save_contract st r).1.rows = st.rows ∧
    (save_contract st r).1.write_queue = st.write_queue ++ [r] := by
  unfold save_contract
  rw [if_pos h]
  exact ⟨rfl, rfl, rfl⟩

/-- Witness: a record whose key is already stored is still accepted with
`True` in batch mode. -/
theorem save_contract_batch_always_true_witness :
    (⟨true, [], [row_a]⟩ : DatabaseState).enable_batch_mode = true ∧
    key_mem [row_a] row_a_dup = true ∧
    ((save_contract ⟨true, [], [row_a]⟩ row_a_dup).2 = true ∧
     (save_contract ⟨true, [], [row_a]⟩ row_a_dup).1.rows = [row_a] ∧
     (save_contract ⟨true, [], [row_a]⟩ row_a_dup).1.write_queue = [] ++ [row_a_dup]) :=
  ⟨rfl, by decide, save_contract_batch_always_true ⟨true, [], [row_a]⟩ row_a_dup rfl⟩
